import Mathlib

/-!
Clerk user-center bridge.

A shallow embedding of `clerk-usercenter/clerk_user_center.go` and
`clerk-usercenter/config.go`.

* Go pointers that the code tests against `nil` are `Option`s.
* A Go `error` result is an `Option GoError` (`none` is the `nil` error).
* The identity provider SDK is outside the repository: it is a parameter
  (`Provider`), a family of transition functions on an arbitrary provider
  state `σ`. Every operation returns the list of provider calls it issued.
* An operation returns `none` when the Go code would hit a nil-pointer
  dereference, `some run` when it returns normally.
* Go `int` (on 64-bit targets) and `int64` are integers in the signed 64-bit
  range; arithmetic wraps with an explicit `% 2^64`.
-/

set_option linter.dupNamespace false

namespace clerk_user_center

/-! ## Go runtime values -/

/-- Go `error` values: a plain message, or the wrapper `fmt.Errorf` builds for
a `%w` verb (the formatted message together with the wrapped error). -/
inductive GoError where
  | errorString (s : String)
  | wrapError (msg : String) (err : GoError)
deriving DecidableEq, Repr

/-- The `Error()` method. -/
def GoError.Error : GoError → String
  | .errorString s => s
  | .wrapError msg _ => msg

/-- The `Unwrap()` method as used by `errors.Unwrap`. -/
def GoError.Unwrap : GoError → Option GoError
  | .errorString _ => none
  | .wrapError _ err => some err

/-- The call `fmt.Errorf(msg)` for a format string without verbs. -/
def Errorf (msg : String) : GoError := .errorString msg

/-- The call `fmt.Errorf(head + "%w", err)`. -/
def ErrorfW (head : String) (err : GoError) : GoError :=
  .wrapError (head ++ err.Error) err

/-- The call `fmt.Sprintf("%s %s", a, b)` on two strings. -/
def SprintfSS (a b : String) : String := a ++ " " ++ b

/-- The range of a signed 64-bit integer. -/
def inInt64 (x : Int) : Prop := -(2 ^ 63) ≤ x ∧ x < 2 ^ 63

instance (x : Int) : Decidable (inInt64 x) := by
  unfold inInt64; infer_instance

/-- Wrap-around of an integer to 64 bits in the signed representation. -/
def wrapInt64 (x : Int) : Int := (x + 2 ^ 63) % 2 ^ 64 - 2 ^ 63

/-- A Go `int64`, and a Go `int` on a 64-bit target. The conversions
`int64(x)` and `int(x)` between the two are the identity. -/
structure Int64 where
  val : Int
  inRange : inInt64 val

instance : DecidableEq Int64 := fun a b =>
  match a, b with
  | ⟨x, _⟩, ⟨y, _⟩ =>
    if h : x = y then isTrue (by subst h; rfl)
    else isFalse (fun e => h (congrArg Int64.val e))

/-- Reduce an integer into the machine range. -/
def Int64.wrap (x : Int) : Int64 :=
  ⟨wrapInt64 x, by
    unfold inInt64 wrapInt64
    have h1 : 0 ≤ (x + 2 ^ 63) % 2 ^ 64 := Int.emod_nonneg _ (by norm_num)
    have h2 : (x + 2 ^ 63) % 2 ^ 64 < 2 ^ 64 := Int.emod_lt_of_pos _ (by norm_num)
    constructor <;> omega⟩

/-- An integer literal of the source. -/
def Int64.lit (x : Int) : Int64 := Int64.wrap x

/-- Go `a - b` on machine integers. -/
def Int64.sub (a b : Int64) : Int64 := Int64.wrap (a.val - b.val)

/-- Go `a * b` on machine integers. -/
def Int64.mul (a b : Int64) : Int64 := Int64.wrap (a.val * b.val)

/-! ## Data model -/

/-- The struct `UserCenterConfig` of `config.go`. -/
structure UserCenterConfig where
  PublishableKey : String
  SecretKey : String
  FrontendAPI : String
deriving DecidableEq, Repr

/-- The handle `clerk.NewClient` returns: it holds the two options given. -/
structure Client where
  SecretKey : String
  FrontendAPI : String
deriving DecidableEq, Repr

/-- The call `clerk.NewClient(clerk.WithSecretKey(k), clerk.WithFrontendAPI(f))`. -/
def NewClient (secretKey frontendAPI : String) : Client :=
  { SecretKey := secretKey, FrontendAPI := frontendAPI }

/-- The struct `ClerkUserCenter`: both fields are pointers. -/
structure ClerkUserCenter where
  Config : Option UserCenterConfig
  Client : Option Client
deriving DecidableEq, Repr

/-- The provider's session record. -/
structure Session where
  UserID : String
deriving DecidableEq, Repr

/-- The provider's email address record. -/
structure EmailAddress where
  EmailAddress : String
deriving DecidableEq, Repr

/-- The provider's user record, with the fields the bridge reads. -/
structure User where
  ID : String
  Username : String
  FirstName : String
  LastName : String
  PrimaryEmailAddress : Option EmailAddress
  ImageURL : String
deriving DecidableEq, Repr

/-- The struct `clerk.UsersListParams`. -/
structure UsersListParams where
  Limit : Int64
  Offset : Int64
deriving DecidableEq

/-- The pagination metadata of a list response. -/
structure ListMeta where
  TotalCount : Int64
deriving DecidableEq

/-- The host's `plugin.UserCenterBasicUserInfo`. -/
structure plugin.UserCenterBasicUserInfo where
  ExternalID : String
  Username : String
  DisplayName : String
  Email : String
  AvatarURL : String
  Roles : List String
deriving DecidableEq, Repr

/-- The host's `plugin.UserCenterBranding`; the zero value has every field
empty. -/
structure plugin.UserCenterBranding where
  AvatarURL : String := ""
  Nickname : String := ""
deriving DecidableEq, Repr

/-- The host's `plugin.UserCenterSetting`. -/
structure plugin.UserCenterSetting where
  Name : String
  Label : String
  Url : String
deriving DecidableEq, Repr

/-- The host's `plugin.UserStatus`. -/
inductive plugin.UserStatus where
  | UserStatusNormal
  | UserStatusBanned
deriving DecidableEq, Repr

/-- The host's translator handle, as built by `plugin.MakeTranslator`. -/
structure plugin.Translator where
  key : String
deriving DecidableEq, Repr

/-- The call `plugin.MakeTranslator(key)`. -/
def plugin.MakeTranslator (key : String) : plugin.Translator := { key := key }

/-- The host's `plugin.Info`. -/
structure plugin.Info where
  Name : plugin.Translator
  SlugName : String
  Description : plugin.Translator
  Author : String
  Version : String
  Link : String
deriving DecidableEq, Repr

/-- The host's `plugin.UserCenterDesc`. -/
structure plugin.UserCenterDesc where
  Name : plugin.Translator
  Icon : String
  URL : String
  Priority : Int
deriving DecidableEq, Repr

/-- The host's `plugin.ControlCenter`. -/
structure plugin.ControlCenter where
  Name : String
  Label : String
  Url : String
deriving DecidableEq, Repr

/-- The request context: the query parameters of the URL, in order. -/
structure GinContext where
  query : List (String × String)
deriving DecidableEq, Repr

/-- The method `ctx.Query(key)`: the first value of the key, or `""` when the
key is absent. -/
def GinContext.Query (ctx : GinContext) (key : String) : String :=
  match ctx.query.lookup key with
  | some v => v
  | none => ""

/-! ## The provider -/

/-- One call to the provider's API. -/
inductive Call where
  | GetSessionByToken (token : String)
  | User (id : String)
  | List (params : UsersListParams)
deriving DecidableEq

/-- The provider SDK as seen from the bridge: each API call takes the client
handle, its argument and the provider state, and gives back either an error
or a value, and the next provider state. A call that returns a nil error
returns non-nil session, user and list element pointers; only the pagination
metadata pointer may be nil. -/
structure Provider (σ : Type) where
  SessionsGetSessionByToken : Client → String → σ → Except GoError Session × σ
  UsersUser : Client → String → σ → Except GoError User × σ
  UsersList : Client → UsersListParams → σ →
    Except GoError (List User × Option ListMeta) × σ

/-- What one run of an operation leaves behind: the returned values, the
bridge after the run, the provider state after the run, and the provider
calls issued, in order. -/
structure Run (σ : Type) (α : Type) where
  ret : α
  bridge : ClerkUserCenter
  world : σ
  calls : List Call

/-! ## Operations -/

/-- The method `Info`. -/
def Info (_c : ClerkUserCenter) : plugin.Info :=
  { Name := plugin.MakeTranslator "clerk_user_center"
    SlugName := "clerk_user_center"
    Description :=
      plugin.MakeTranslator "Clerk UserCenter 插件，用于替换 Apache Answer 默认认证"
    Author := "Sean Chen"
    Version := "0.1.0"
    Link := "https://github.com/yourorg/answer-plugins/user-center-clerk" }

/-- The method `Description`. -/
def Description (_c : ClerkUserCenter) : plugin.UserCenterDesc :=
  { Name := plugin.MakeTranslator "Clerk SSO Login"
    Icon := "<svg xmlns=\"http://www.w3.org/2000/svg\" width=\"24\" height=\"24\"><path d=\"M12 2C6.5 2 2 6.49 2 12s4.5 10 10 10 10-4.49 10-10S17.5 2 12 2zm0 18c-4.41 0-8-3.59-8-8s3.59-8 8-8 8 3.59 8 8-3.59 8-8 8z\"/><path d=\"M11 6h2v6h-2zm0 8h2v2h-2z\"/></svg>"
    URL := "/login/clerk"
    Priority := 10 }

/-- The method `ControlCenterItems`. -/
def ControlCenterItems (_c : ClerkUserCenter) : List plugin.ControlCenter :=
  [{ Name := "Clerk Dashboard"
     Label := "Clerk Dashboard"
     Url := "https://dashboard.clerk.com" }]

/-- The method `ensureClient`: the returned error and the bridge afterwards.
It issues no provider call. -/
def ensureClient (c : ClerkUserCenter) : Option GoError × ClerkUserCenter :=
  match c.Client with
  | some _ => (none, c)
  | none =>
    match c.Config with
    | none => (some (Errorf "Clerk config is not set"), c)
    | some cfg =>
      if cfg.SecretKey = "" ∨ cfg.FrontendAPI = "" then
        (some (Errorf "Clerk config is not set"), c)
      else
        (none, { c with Client := some (NewClient cfg.SecretKey cfg.FrontendAPI) })

/-- The method `LoginCallback`. -/
def LoginCallback {σ : Type} (p : Provider σ) (c : ClerkUserCenter) (w : σ)
    (ctx : GinContext) :
    Option (Run σ (Option plugin.UserCenterBasicUserInfo × Option GoError)) :=
  match ensureClient c with
  | (some err, c1) => some ⟨(none, some err), c1, w, []⟩
  | (none, c1) =>
    let sessionToken := ctx.Query "session_token"
    if sessionToken = "" then
      some ⟨(none, some (Errorf "Lack of Clerk session_token parameter in URL")),
        c1, w, []⟩
    else
      match c1.Client with
      | none => none
      | some cl =>
        match p.SessionsGetSessionByToken cl sessionToken w with
        | (.error err, w1) =>
          some ⟨(none, some (ErrorfW "Clerk: Invalid session_token: " err)),
            c1, w1, [.GetSessionByToken sessionToken]⟩
        | (.ok session, w1) =>
          match p.UsersUser cl session.UserID w1 with
          | (.error err, w2) =>
            some ⟨(none, some (ErrorfW "Clerk: Failed to get User Info: " err)),
              c1, w2, [.GetSessionByToken sessionToken, .User session.UserID]⟩
          | (.ok clerkUser, w2) =>
            let email :=
              match clerkUser.PrimaryEmailAddress with
              | some a => a.EmailAddress
              | none => ""
            let displayName :=
              if clerkUser.LastName ≠ "" then
                SprintfSS clerkUser.FirstName clerkUser.LastName
              else clerkUser.FirstName
            let userInfo : plugin.UserCenterBasicUserInfo :=
              { ExternalID := clerkUser.ID
                Username := clerkUser.Username
                DisplayName := displayName
                Email := email
                AvatarURL := clerkUser.ImageURL
                Roles := ["member"] }
            some ⟨(some userInfo, none), c1, w2,
              [.GetSessionByToken sessionToken, .User session.UserID]⟩

/-- The method `UserInfo`. -/
def UserInfo {σ : Type} (p : Provider σ) (c : ClerkUserCenter) (w : σ)
    (externalID : String) :
    Option (Run σ (Option plugin.UserCenterBasicUserInfo × Option GoError)) :=
  match ensureClient c with
  | (some err, c1) => some ⟨(none, some err), c1, w, []⟩
  | (none, c1) =>
    match c1.Client with
    | none => none
    | some cl =>
      match p.UsersUser cl externalID w with
      | (.error err, w1) =>
        some ⟨(none, some (ErrorfW "Clerk: Failed to get User Info: " err)),
          c1, w1, [.User externalID]⟩
      | (.ok clerkUser, w1) =>
        let email :=
          match clerkUser.PrimaryEmailAddress with
          | some a => a.EmailAddress
          | none => ""
        let displayName :=
          if clerkUser.LastName ≠ "" then
            SprintfSS clerkUser.FirstName clerkUser.LastName
          else clerkUser.FirstName
        some ⟨(some
            { ExternalID := clerkUser.ID
              Username := clerkUser.Username
              DisplayName := displayName
              Email := email
              AvatarURL := clerkUser.ImageURL
              Roles := ["member"] }, none), c1, w1, [.User externalID]⟩

/-- The method `UserStatus`: it reads neither the bridge nor the provider. -/
def UserStatus (_c : ClerkUserCenter) (_externalID : String) : plugin.UserStatus :=
  .UserStatusNormal

/-- The method `SignUpCallback`. -/
def SignUpCallback {σ : Type} (p : Provider σ) (c : ClerkUserCenter) (w : σ)
    (ctx : GinContext) :
    Option (Run σ (Option plugin.UserCenterBasicUserInfo × Option GoError)) :=
  LoginCallback p c w ctx

/-- The method `UserList`. The returned slice is `none` for Go `nil`. -/
def UserList {σ : Type} (p : Provider σ) (c : ClerkUserCenter) (w : σ)
    (page pageSize : Int64) :
    Option (Run σ (Option (List plugin.UserCenterBasicUserInfo) × Int64 × Option GoError)) :=
  match ensureClient c with
  | (some err, c1) => some ⟨(none, Int64.lit 0, some err), c1, w, []⟩
  | (none, c1) =>
    match c1.Client with
    | none => none
    | some cl =>
      let params : UsersListParams :=
        { Limit := pageSize
          Offset := Int64.mul (Int64.sub page (Int64.lit 1)) pageSize }
      match p.UsersList cl params w with
      | (.error err, w1) =>
        some ⟨(none, Int64.lit 0,
            some (ErrorfW "Clerk: Failed to list users: " err)),
          c1, w1, [.List params]⟩
      | (.ok (users, listMeta), w1) =>
        let result : List plugin.UserCenterBasicUserInfo :=
          users.foldl
            (fun result u =>
              let email :=
                match u.PrimaryEmailAddress with
                | some a => a.EmailAddress
                | none => ""
              let displayName :=
                if u.LastName ≠ "" then SprintfSS u.FirstName u.LastName
                else u.FirstName
              result ++
                [{ ExternalID := u.ID
                   Username := u.Username
                   DisplayName := displayName
                   Email := email
                   AvatarURL := u.ImageURL
                   Roles := ["member"] }])
            []
        let total : Int64 :=
          match listMeta with
          | some m => m.TotalCount
          | none => Int64.lit 0
        some ⟨(some result, total, none), c1, w1, [.List params]⟩

/-- The method `UserSettings`. -/
def UserSettings (_c : ClerkUserCenter) (_externalID : String) :
    Option plugin.UserCenterSetting :=
  some
    { Name := "Clerk Settings"
      Label := "Manage my Clerk Account"
      Url := "https://dashboard.clerk.com/user" }

/-- The method `PersonalBranding`. The returned pointer is `none` for Go
`nil`. -/
def PersonalBranding {σ : Type} (p : Provider σ) (c : ClerkUserCenter) (w : σ)
    (externalID : String) : Option (Run σ (Option plugin.UserCenterBranding)) :=
  match ensureClient c with
  | (some _, c1) => some ⟨some {}, c1, w, []⟩
  | (none, c1) =>
    match c1.Client with
    | none => none
    | some cl =>
      match p.UsersUser cl externalID w with
      | (.error _, w1) => some ⟨some {}, c1, w1, [.User externalID]⟩
      | (.ok clerkUser, w1) =>
        some ⟨some
            { AvatarURL := clerkUser.ImageURL
              Nickname := clerkUser.Username }, c1, w1, [.User externalID]⟩

/-! ## The bridge as a transition system -/

/-- The methods of the bridge, with their arguments. -/
inductive Op where
  | Info
  | Description
  | ControlCenterItems
  | ensureClient
  | LoginCallback (ctx : GinContext)
  | UserInfo (externalID : String)
  | UserStatus (externalID : String)
  | SignUpCallback (ctx : GinContext)
  | UserList (page pageSize : Int64)
  | UserSettings (externalID : String)
  | PersonalBranding (externalID : String)

/-- The state one method call leaves: the bridge and the provider state, or
`none` when the call does not return. `Info`, `Description`,
`ControlCenterItems`, `UserStatus` and `UserSettings` return constants and
write nothing. -/
def step {σ : Type} (p : Provider σ) (op : Op) (st : ClerkUserCenter × σ) :
    Option (ClerkUserCenter × σ) :=
  match op with
  | .Info => some st
  | .Description => some st
  | .ControlCenterItems => some st
  | .ensureClient => some ((ensureClient st.1).2, st.2)
  | .LoginCallback ctx =>
    (LoginCallback p st.1 st.2 ctx).map (fun r => (r.bridge, r.world))
  | .UserInfo externalID =>
    (UserInfo p st.1 st.2 externalID).map (fun r => (r.bridge, r.world))
  | .UserStatus _ => some st
  | .SignUpCallback ctx =>
    (SignUpCallback p st.1 st.2 ctx).map (fun r => (r.bridge, r.world))
  | .UserList page pageSize =>
    (UserList p st.1 st.2 page pageSize).map (fun r => (r.bridge, r.world))
  | .UserSettings _ => some st
  | .PersonalBranding externalID =>
    (PersonalBranding p st.1 st.2 externalID).map (fun r => (r.bridge, r.world))

/-- A sequence of method calls, one after the other. -/
def exec {σ : Type} (p : Provider σ) :
    List Op → ClerkUserCenter × σ → Option (ClerkUserCenter × σ)
  | [], st => some st
  | op :: ops, st =>
    match step p op st with
    | none => none
    | some st1 => exec p ops st1

/-! ## The field mapping of the specification -/

/-- The field mapping as the specification words it: the email is the primary
email address if present and the empty string otherwise, the display name is
the first name, followed by a space and the last name if the last name is not
empty, and the roles are the constant list with the single element
`"member"`. -/
def specHostRecord (u : User) : plugin.UserCenterBasicUserInfo :=
  { ExternalID := u.ID
    Username := u.Username
    DisplayName :=
      if u.LastName = "" then u.FirstName else u.FirstName ++ " " ++ u.LastName
    Email :=
      match u.PrimaryEmailAddress with
      | none => ""
      | some a => a.EmailAddress
    AvatarURL := u.ImageURL
    Roles := ["member"] }

/-! ## A concrete provider and concrete bridges -/

/-- The user of the end-to-end scenario: no last name, a primary email. -/
def ada : User :=
  { ID := "user_1", Username := "ada", FirstName := "Ada", LastName := ""
    PrimaryEmailAddress := some { EmailAddress := "ada@x.com" }
    ImageURL := "https://img.example/ada.png" }

/-- A user with a last name and without a primary email. -/
def grace : User :=
  { ID := "user_2", Username := "grace", FirstName := "Grace"
    LastName := "Hopper", PrimaryEmailAddress := none
    ImageURL := "https://img.example/grace.png" }

/-- A provider whose state counts the calls it has served. It knows the token
`"tok_valid"` and the users `"user_1"` and `"user_2"`, and serves ten records
with total 25 at offset 10, limit 10. -/
def demoProvider : Provider Nat where
  SessionsGetSessionByToken := fun _ token n =>
    if token = "tok_valid" then (.ok { UserID := "user_1" }, n + 1)
    else (.error (.errorString "session not found"), n + 1)
  UsersUser := fun _ id n =>
    if id = "user_1" then (.ok ada, n + 1)
    else if id = "user_2" then (.ok grace, n + 1)
    else (.error (.errorString "user not found"), n + 1)
  UsersList := fun _ params n =>
    if params.Limit.val = 10 ∧ params.Offset.val = 10 then
      (.ok (List.replicate 5 ada ++ List.replicate 5 grace,
        some { TotalCount := ⟨25, by decide⟩ }), n + 1)
    else (.ok ([], none), n + 1)

/-- A complete configuration. -/
def demoConfig : UserCenterConfig :=
  { PublishableKey := "pk_test", SecretKey := "sk_test"
    FrontendAPI := "https://api.clerk.dev" }

/-- The client built from `demoConfig`. -/
def demoClient : Client := NewClient "sk_test" "https://api.clerk.dev"

/-- The bridge as `init` registers it: `&ClerkUserCenter{}`. -/
def registeredBridge : ClerkUserCenter := { Config := none, Client := none }

/-- A configured bridge whose client has not been built yet. -/
def configuredBridge : ClerkUserCenter :=
  { Config := some demoConfig, Client := none }

/-- A configured bridge whose client has been built. -/
def readyBridge : ClerkUserCenter :=
  { Config := some demoConfig, Client := some demoClient }

/-- A bridge whose configuration has an empty secret key and whose client has
not been built. -/
def keylessBridge : ClerkUserCenter :=
  { Config := some { PublishableKey := "pk_test", SecretKey := ""
                     FrontendAPI := "https://api.clerk.dev" }
    Client := none }

/-- The callback request `?session_token=tok_valid`. -/
def validRequest : GinContext := { query := [("session_token", "tok_valid")] }

/-- A callback request without any query parameter. -/
def bareRequest : GinContext := { query := [] }

/-- A callback request with an empty token, `?session_token=`. -/
def emptyTokenRequest : GinContext := { query := [("session_token", "")] }

/-- The page number `2^62 + 1`. -/
def hugePage : Int64 := ⟨4611686018427387905, by decide⟩

/-- The page size 4. -/
def pageSizeFour : Int64 := ⟨4, by decide⟩

/-- The page number 2. -/
def pageTwo : Int64 := ⟨2, by decide⟩

/-- The page size 10. -/
def pageSizeTen : Int64 := ⟨10, by decide⟩

/-! ## Client initialisation -/

theorem ensureClient_of_client {c : ClerkUserCenter} {cl : Client}
    (h : c.Client = some cl) : ensureClient c = (none, c) := by
  unfold ensureClient
  rw [h]

theorem ensureClient_cases (c : ClerkUserCenter) :
    (ensureClient c = (some (Errorf "Clerk config is not set"), c) ∧
        c.Client = none) ∨
      (∃ cl, (ensureClient c).1 = none ∧ (ensureClient c).2.Client = some cl ∧
        (ensureClient c).2.Config = c.Config) := by
  unfold ensureClient
  rcases hcl : c.Client with _ | cl
  · rcases hcfg : c.Config with _ | cfg
    · left; exact ⟨rfl, rfl⟩
    · by_cases hk : cfg.SecretKey = "" ∨ cfg.FrontendAPI = ""
      · left
        dsimp only
        rw [if_pos hk]
        exact ⟨rfl, rfl⟩
      · right
        dsimp only
        rw [if_neg hk]
        exact ⟨_, rfl, rfl, rfl⟩
  · right; exact ⟨cl, rfl, hcl, rfl⟩

theorem ensureClient_ok_of_ready {c : ClerkUserCenter} {cl : Client}
    (h : (ensureClient c).2.Client = some cl) : (ensureClient c).1 = none := by
  rcases ensureClient_cases c with ⟨he, hn⟩ | ⟨_, h1, _, _⟩
  · rw [he] at h
    simp [hn] at h
  · exact h1

theorem ensureClient_failed {c : ClerkUserCenter} {e : GoError}
    (h : (ensureClient c).1 = some e) :
    ensureClient c = (some (Errorf "Clerk config is not set"), c) ∧
      c.Client = none := by
  rcases ensureClient_cases c with hf | ⟨_, h1, _, _⟩
  · exact hf
  · rw [h1] at h
    cases h

/-! ## The operations once the client is available -/

theorem inline_mapping_eq_spec (u : User) :
    ({ ExternalID := u.ID
       Username := u.Username
       DisplayName :=
         if u.LastName ≠ "" then SprintfSS u.FirstName u.LastName
         else u.FirstName
       Email :=
         match u.PrimaryEmailAddress with
         | some a => a.EmailAddress
         | none => ""
       AvatarURL := u.ImageURL
       Roles := ["member"] } : plugin.UserCenterBasicUserInfo) =
      specHostRecord u := by
  unfold specHostRecord SprintfSS
  by_cases hl : u.LastName = "" <;> cases hp : u.PrimaryEmailAddress <;> simp [hl]

theorem LoginCallback_ready {σ : Type} (p : Provider σ) (c : ClerkUserCenter)
    (w : σ) (ctx : GinContext) {cl : Client}
    (h : (ensureClient c).2.Client = some cl) :
    LoginCallback p c w ctx =
      if ctx.Query "session_token" = "" then
        some ⟨(none, some (Errorf "Lack of Clerk session_token parameter in URL")),
          (ensureClient c).2, w, []⟩
      else
        match p.SessionsGetSessionByToken cl (ctx.Query "session_token") w with
        | (.error err, w1) =>
          some ⟨(none, some (ErrorfW "Clerk: Invalid session_token: " err)),
            (ensureClient c).2, w1, [.GetSessionByToken (ctx.Query "session_token")]⟩
        | (.ok session, w1) =>
          match p.UsersUser cl session.UserID w1 with
          | (.error err, w2) =>
            some ⟨(none, some (ErrorfW "Clerk: Failed to get User Info: " err)),
              (ensureClient c).2, w2,
              [.GetSessionByToken (ctx.Query "session_token"), .User session.UserID]⟩
          | (.ok clerkUser, w2) =>
            some ⟨(some (specHostRecord clerkUser), none), (ensureClient c).2, w2,
              [.GetSessionByToken (ctx.Query "session_token"), .User session.UserID]⟩ := by
  have h1 := ensureClient_ok_of_ready h
  unfold LoginCallback
  rcases hE : ensureClient c with ⟨e, c1⟩
  rw [hE] at h h1
  dsimp only at h h1
  subst h1
  dsimp only
  rw [h]
  by_cases ht : ctx.Query "session_token" = ""
  · rw [if_pos ht, if_pos ht]
  · rw [if_neg ht, if_neg ht]
    dsimp only
    rcases hs : p.SessionsGetSessionByToken cl (ctx.Query "session_token") w with ⟨rs, w1⟩
    rcases rs with err | session
    · rfl
    · dsimp only
      rcases hu : p.UsersUser cl session.UserID w1 with ⟨ru, w2⟩
      rcases ru with err | clerkUser
      · rfl
      · dsimp only
        rw [inline_mapping_eq_spec]

theorem UserInfo_ready {σ : Type} (p : Provider σ) (c : ClerkUserCenter)
    (w : σ) (externalID : String) {cl : Client}
    (h : (ensureClient c).2.Client = some cl) :
    UserInfo p c w externalID =
      match p.UsersUser cl externalID w with
      | (.error err, w1) =>
        some ⟨(none, some (ErrorfW "Clerk: Failed to get User Info: " err)),
          (ensureClient c).2, w1, [.User externalID]⟩
      | (.ok clerkUser, w1) =>
        some ⟨(some (specHostRecord clerkUser), none), (ensureClient c).2, w1,
          [.User externalID]⟩ := by
  have h1 := ensureClient_ok_of_ready h
  unfold UserInfo
  rcases hE : ensureClient c with ⟨e, c1⟩
  rw [hE] at h h1
  dsimp only at h h1
  subst h1
  dsimp only
  rw [h]
  dsimp only
  rcases hu : p.UsersUser cl externalID w with ⟨ru, w1⟩
  rcases ru with err | clerkUser
  · rfl
  · dsimp only
    rw [inline_mapping_eq_spec]

theorem foldl_append_singleton {α β : Type} (f : α → β) (xs : List α)
    (init : List β) :
    xs.foldl (fun acc x => acc ++ [f x]) init = init ++ xs.map f := by
  induction xs generalizing init with
  | nil => simp
  | cons x xs ih => simp [List.foldl_cons, ih]

theorem UserList_ready {σ : Type} (p : Provider σ) (c : ClerkUserCenter)
    (w : σ) (page pageSize : Int64) {cl : Client}
    (h : (ensureClient c).2.Client = some cl) :
    UserList p c w page pageSize =
      match p.UsersList cl
          { Limit := pageSize
            Offset := Int64.mul (Int64.sub page (Int64.lit 1)) pageSize } w with
      | (.error err, w1) =>
        some ⟨(none, Int64.lit 0, some (ErrorfW "Clerk: Failed to list users: " err)),
          (ensureClient c).2, w1,
          [.List { Limit := pageSize
                   Offset := Int64.mul (Int64.sub page (Int64.lit 1)) pageSize }]⟩
      | (.ok (users, listMeta), w1) =>
        some ⟨(some (users.map specHostRecord),
            (match listMeta with
              | some m => m.TotalCount
              | none => Int64.lit 0), none),
          (ensureClient c).2, w1,
          [.List { Limit := pageSize
                   Offset := Int64.mul (Int64.sub page (Int64.lit 1)) pageSize }]⟩ := by
  have h1 := ensureClient_ok_of_ready h
  unfold UserList
  rcases hE : ensureClient c with ⟨e, c1⟩
  rw [hE] at h h1
  dsimp only at h h1
  subst h1
  dsimp only
  rw [h]
  dsimp only
  rcases hu : p.UsersList cl
      { Limit := pageSize
        Offset := Int64.mul (Int64.sub page (Int64.lit 1)) pageSize } w with ⟨ru, w1⟩
  rcases ru with err | ⟨users, listMeta⟩
  · rfl
  · dsimp only
    have hm : (fun (result : List plugin.UserCenterBasicUserInfo) (u : User) =>
        result ++
          [({ ExternalID := u.ID
              Username := u.Username
              DisplayName :=
                if u.LastName ≠ "" then SprintfSS u.FirstName u.LastName
                else u.FirstName
              Email :=
                match u.PrimaryEmailAddress with
                | some a => a.EmailAddress
                | none => ""
              AvatarURL := u.ImageURL
              Roles := ["member"] } : plugin.UserCenterBasicUserInfo)]) =
        fun result u => result ++ [specHostRecord u] := by
      funext result u
      rw [inline_mapping_eq_spec]
    rw [hm, foldl_append_singleton]
    simp

theorem PersonalBranding_ready {σ : Type} (p : Provider σ) (c : ClerkUserCenter)
    (w : σ) (externalID : String) {cl : Client}
    (h : (ensureClient c).2.Client = some cl) :
    PersonalBranding p c w externalID =
      match p.UsersUser cl externalID w with
      | (.error _, w1) =>
        some ⟨some { AvatarURL := "", Nickname := "" }, (ensureClient c).2, w1,
          [.User externalID]⟩
      | (.ok clerkUser, w1) =>
        some ⟨some { AvatarURL := clerkUser.ImageURL, Nickname := clerkUser.Username },
          (ensureClient c).2, w1, [.User externalID]⟩ := by
  have h1 := ensureClient_ok_of_ready h
  unfold PersonalBranding
  rcases hE : ensureClient c with ⟨e, c1⟩
  rw [hE] at h h1
  dsimp only at h h1
  subst h1
  dsimp only
  rw [h]

/-! ## The operations when the client cannot be initialised -/

theorem LoginCallback_failed {σ : Type} (p : Provider σ) (c : ClerkUserCenter)
    (w : σ) (ctx : GinContext) {e : GoError} (h : (ensureClient c).1 = some e) :
    LoginCallback p c w ctx =
      some ⟨(none, some (Errorf "Clerk config is not set")), c, w, []⟩ := by
  unfold LoginCallback
  rw [(ensureClient_failed h).1]

theorem UserInfo_failed {σ : Type} (p : Provider σ) (c : ClerkUserCenter)
    (w : σ) (externalID : String) {e : GoError}
    (h : (ensureClient c).1 = some e) :
    UserInfo p c w externalID =
      some ⟨(none, some (Errorf "Clerk config is not set")), c, w, []⟩ := by
  unfold UserInfo
  rw [(ensureClient_failed h).1]

theorem UserList_failed {σ : Type} (p : Provider σ) (c : ClerkUserCenter)
    (w : σ) (page pageSize : Int64) {e : GoError}
    (h : (ensureClient c).1 = some e) :
    UserList p c w page pageSize =
      some ⟨(none, Int64.lit 0, some (Errorf "Clerk config is not set")), c, w, []⟩ := by
  unfold UserList
  rw [(ensureClient_failed h).1]

theorem PersonalBranding_failed {σ : Type} (p : Provider σ)
    (c : ClerkUserCenter) (w : σ) (externalID : String) {e : GoError}
    (h : (ensureClient c).1 = some e) :
    PersonalBranding p c w externalID =
      some ⟨some { AvatarURL := "", Nickname := "" }, c, w, []⟩ := by
  unfold PersonalBranding
  rw [(ensureClient_failed h).1]

/-! ## The field mapping -/

/-- C1: for a provider user record fetched by `LoginCallback`, `UserInfo` or
`UserList`, the host record produced from it has the display name
`FirstName ++ " " ++ LastName` when the last name is not empty, and the first
name exactly when the last name is empty. -/
theorem display_name_mapping {σ : Type} (p : Provider σ) (c : ClerkUserCenter)
    (cl : Client) (hcl : (ensureClient c).2.Client = some cl) :
    (∀ (w w1 w2 : σ) (ctx : GinContext) (s : Session) (u : User),
        ctx.Query "session_token" ≠ "" →
        p.SessionsGetSessionByToken cl (ctx.Query "session_token") w = (.ok s, w1) →
        p.UsersUser cl s.UserID w1 = (.ok u, w2) →
        ∃ r info, LoginCallback p c w ctx = some r ∧ r.ret = (some info, none) ∧
          info.DisplayName =
            if u.LastName = "" then u.FirstName
            else u.FirstName ++ " " ++ u.LastName) ∧
    (∀ (w w1 : σ) (externalID : String) (u : User),
        p.UsersUser cl externalID w = (.ok u, w1) →
        ∃ r info, UserInfo p c w externalID = some r ∧ r.ret = (some info, none) ∧
          info.DisplayName =
            if u.LastName = "" then u.FirstName
            else u.FirstName ++ " " ++ u.LastName) ∧
    (∀ (w w1 : σ) (page pageSize : Int64) (users : List User)
        (listMeta : Option ListMeta),
        p.UsersList cl
            { Limit := pageSize
              Offset := Int64.mul (Int64.sub page (Int64.lit 1)) pageSize } w =
          (.ok (users, listMeta), w1) →
        ∃ r recs, UserList p c w page pageSize = some r ∧ r.ret.1 = some recs ∧
          recs.map (fun info => info.DisplayName) =
            users.map (fun u =>
              if u.LastName = "" then u.FirstName
              else u.FirstName ++ " " ++ u.LastName)) := by
  refine ⟨?_, ?_, ?_⟩
  · intro w w1 w2 ctx s u ht hs hu
    rw [LoginCallback_ready p c w ctx hcl, if_neg ht, hs]
    dsimp only
    rw [hu]
    exact ⟨_, _, rfl, rfl, rfl⟩
  · intro w w1 externalID u hu
    rw [UserInfo_ready p c w externalID hcl, hu]
    exact ⟨_, _, rfl, rfl, rfl⟩
  · intro w w1 page pageSize users listMeta hl
    rw [UserList_ready p c w page pageSize hcl, hl]
    refine ⟨_, _, rfl, rfl, ?_⟩
    rw [List.map_map]
    rfl

/-- C1, on the concrete provider: the user with first name `"Ada"` and an empty
last name is given the display name `"Ada"` by `LoginCallback`. -/
theorem display_name_mapping_witness :
    ∃ r info, LoginCallback demoProvider configuredBridge 0 validRequest = some r ∧
      r.ret = (some info, none) ∧ info.DisplayName = "Ada" :=
  (display_name_mapping demoProvider configuredBridge demoClient rfl).1
    0 1 2 validRequest { UserID := "user_1" } ada (by decide) rfl rfl

/-- C2: for a provider user record fetched by `LoginCallback`, `UserInfo` or
`UserList`, the operation returns normally with a host record whose email is
the empty string when the primary email address is absent, and the
`EmailAddress` of the primary email address when it is present. -/
theorem email_mapping {σ : Type} (p : Provider σ) (c : ClerkUserCenter)
    (cl : Client) (hcl : (ensureClient c).2.Client = some cl) :
    (∀ (w w1 w2 : σ) (ctx : GinContext) (s : Session) (u : User),
        ctx.Query "session_token" ≠ "" →
        p.SessionsGetSessionByToken cl (ctx.Query "session_token") w = (.ok s, w1) →
        p.UsersUser cl s.UserID w1 = (.ok u, w2) →
        ∃ r info, LoginCallback p c w ctx = some r ∧ r.ret = (some info, none) ∧
          info.Email =
            match u.PrimaryEmailAddress with
            | none => ""
            | some a => a.EmailAddress) ∧
    (∀ (w w1 : σ) (externalID : String) (u : User),
        p.UsersUser cl externalID w = (.ok u, w1) →
        ∃ r info, UserInfo p c w externalID = some r ∧ r.ret = (some info, none) ∧
          info.Email =
            match u.PrimaryEmailAddress with
            | none => ""
            | some a => a.EmailAddress) ∧
    (∀ (w w1 : σ) (page pageSize : Int64) (users : List User)
        (listMeta : Option ListMeta),
        p.UsersList cl
            { Limit := pageSize
              Offset := Int64.mul (Int64.sub page (Int64.lit 1)) pageSize } w =
          (.ok (users, listMeta), w1) →
        ∃ r recs, UserList p c w page pageSize = some r ∧
          r.ret.1 = some recs ∧ r.ret.2.2 = none ∧
          recs.map (fun info => info.Email) =
            users.map (fun u =>
              match u.PrimaryEmailAddress with
              | none => ""
              | some a => a.EmailAddress)) := by
  refine ⟨?_, ?_, ?_⟩
  · intro w w1 w2 ctx s u ht hs hu
    rw [LoginCallback_ready p c w ctx hcl, if_neg ht, hs]
    dsimp only
    rw [hu]
    exact ⟨_, _, rfl, rfl, rfl⟩
  · intro w w1 externalID u hu
    rw [UserInfo_ready p c w externalID hcl, hu]
    exact ⟨_, _, rfl, rfl, rfl⟩
  · intro w w1 page pageSize users listMeta hl
    rw [UserList_ready p c w page pageSize hcl, hl]
    refine ⟨_, _, rfl, rfl, rfl, ?_⟩
    rw [List.map_map]
    rfl

/-- C2, on the concrete provider: the user without a primary email address is
mapped by `UserInfo` to a host record with the empty email. -/
theorem email_mapping_witness :
    ∃ r info, UserInfo demoProvider readyBridge 0 "user_2" = some r ∧
      r.ret = (some info, none) ∧ info.Email = "" :=
  (email_mapping demoProvider readyBridge demoClient rfl).2.1 0 1 "user_2" grace rfl

/-- C9: every host record returned by `LoginCallback`, `SignUpCallback`,
`UserInfo` or `UserList`, for any provider, bridge, provider state and
arguments, has the roles `["member"]`. -/
theorem roles_always_member {σ : Type} (p : Provider σ) (c : ClerkUserCenter)
    (w : σ) :
    (∀ ctx r info, LoginCallback p c w ctx = some r → r.ret.1 = some info →
        info.Roles = ["member"]) ∧
    (∀ ctx r info, SignUpCallback p c w ctx = some r → r.ret.1 = some info →
        info.Roles = ["member"]) ∧
    (∀ externalID r info, UserInfo p c w externalID = some r →
        r.ret.1 = some info → info.Roles = ["member"]) ∧
    (∀ page pageSize r recs, UserList p c w page pageSize = some r →
        r.ret.1 = some recs → ∀ info ∈ recs, info.Roles = ["member"]) := by
  have hlogin : ∀ ctx r info, LoginCallback p c w ctx = some r →
      r.ret.1 = some info → info.Roles = ["member"] := by
    intro ctx r info hr hi
    rcases ensureClient_cases c with ⟨hf, _⟩ | ⟨cl, _, hcl, _⟩
    · rw [LoginCallback_failed p c w ctx (congrArg Prod.fst hf)] at hr
      cases hr
      cases hi
    · rw [LoginCallback_ready p c w ctx hcl] at hr
      by_cases ht : ctx.Query "session_token" = ""
      · rw [if_pos ht] at hr
        cases hr
        cases hi
      · rw [if_neg ht] at hr
        rcases hs : p.SessionsGetSessionByToken cl (ctx.Query "session_token") w
          with ⟨rs, w1⟩
        rw [hs] at hr
        rcases rs with err | s
        · cases hr
          cases hi
        · dsimp only at hr
          rcases hu : p.UsersUser cl s.UserID w1 with ⟨ru, w2⟩
          rw [hu] at hr
          rcases ru with err | u
          · cases hr
            cases hi
          · cases hr
            cases hi
            rfl
  refine ⟨hlogin, hlogin, ?_, ?_⟩
  · intro externalID r info hr hi
    rcases ensureClient_cases c with ⟨hf, _⟩ | ⟨cl, _, hcl, _⟩
    · rw [UserInfo_failed p c w externalID (congrArg Prod.fst hf)] at hr
      cases hr
      cases hi
    · rw [UserInfo_ready p c w externalID hcl] at hr
      rcases hu : p.UsersUser cl externalID w with ⟨ru, w1⟩
      rw [hu] at hr
      rcases ru with err | u
      · cases hr
        cases hi
      · cases hr
        cases hi
        rfl
  · intro page pageSize r recs hr hi info hmem
    rcases ensureClient_cases c with ⟨hf, _⟩ | ⟨cl, _, hcl, _⟩
    · rw [UserList_failed p c w page pageSize (congrArg Prod.fst hf)] at hr
      cases hr
      cases hi
    · rw [UserList_ready p c w page pageSize hcl] at hr
      rcases hu : p.UsersList cl
          { Limit := pageSize
            Offset := Int64.mul (Int64.sub page (Int64.lit 1)) pageSize } w
        with ⟨ru, w1⟩
      rw [hu] at hr
      rcases ru with err | ⟨users, listMeta⟩
      · cases hr
        cases hi
      · cases hr
        cases hi
        rcases List.mem_map.mp hmem with ⟨u, _, rfl⟩
        rfl

/-- C9, on the concrete provider: the record `LoginCallback` returns for the
valid token has the roles `["member"]`. -/
theorem roles_always_member_witness :
    LoginCallback demoProvider configuredBridge 0 validRequest =
        some ⟨(some (specHostRecord ada), none), readyBridge, 2,
          [.GetSessionByToken "tok_valid", .User "user_1"]⟩ ∧
      (specHostRecord ada).Roles = ["member"] :=
  ⟨rfl, (roles_always_member demoProvider configuredBridge 0).1 validRequest
    ⟨(some (specHostRecord ada), none), readyBridge, 2,
      [.GetSessionByToken "tok_valid", .User "user_1"]⟩ (specHostRecord ada) rfl rfl⟩

/-! ## Pagination -/

theorem wrapInt64_of_inInt64 {x : Int} (h : inInt64 x) : wrapInt64 x = x := by
  unfold inInt64 at h
  unfold wrapInt64
  have h1 : (x + 2 ^ 63) % 2 ^ 64 = x + 2 ^ 63 :=
    Int.emod_eq_of_lt (by omega) (by omega)
  omega

theorem Int64.ext_val {a b : Int64} (h : a.val = b.val) : a = b := by
  cases a
  cases b
  cases h
  rfl

theorem offset_of_inInt64 (page pageSize : Int64) (hp : 1 ≤ page.val)
    (hprod : inInt64 ((page.val - 1) * pageSize.val)) :
    Int64.mul (Int64.sub page (Int64.lit 1)) pageSize =
      ⟨(page.val - 1) * pageSize.val, hprod⟩ := by
  apply Int64.ext_val
  have h1 : (Int64.lit 1).val = 1 := by decide
  have hr := page.inRange
  have h2 : (Int64.sub page (Int64.lit 1)).val = page.val - 1 := by
    show wrapInt64 (page.val - (Int64.lit 1).val) = page.val - 1
    rw [h1]
    apply wrapInt64_of_inInt64
    unfold inInt64 at hr ⊢
    constructor <;> omega
  show wrapInt64 ((Int64.sub page (Int64.lit 1)).val * pageSize.val) = _
  rw [h2]
  exact wrapInt64_of_inInt64 hprod

/-- C3, the claim as stated fails: for page `2^62 + 1` and page size 4 the
product `(page-1) * pageSize` is `2^64`, and `UserList` calls the list
operation with offset 0. -/
theorem list_offset_overflow :
    (UserList demoProvider readyBridge 0 hugePage pageSizeFour).map
        (fun r => r.calls) =
      some [Call.List { Limit := pageSizeFour, Offset := ⟨0, by decide⟩ }] ∧
    1 ≤ hugePage.val ∧
    (hugePage.val - 1) * pageSizeFour.val = 18446744073709551616 :=
  ⟨by decide, by decide, by decide⟩

/-- C3, amended: for every page and page size with `page >= 1` whose product
`(page-1) * pageSize` lies in the signed 64-bit range, `UserList` on a bridge
whose client is available issues exactly one provider call, the list
operation with `Offset = (page-1) * pageSize` and `Limit = pageSize`, and
continues from the state that call leaves. -/
theorem list_offset_limit {σ : Type} (p : Provider σ) (c : ClerkUserCenter)
    (cl : Client) (w : σ) (page pageSize : Int64)
    (hcl : (ensureClient c).2.Client = some cl) (hp : 1 ≤ page.val)
    (hprod : inInt64 ((page.val - 1) * pageSize.val)) :
    ∃ r, UserList p c w page pageSize = some r ∧
      r.calls =
        [Call.List
          { Limit := pageSize, Offset := ⟨(page.val - 1) * pageSize.val, hprod⟩ }] ∧
      r.world =
        (p.UsersList cl
          { Limit := pageSize, Offset := ⟨(page.val - 1) * pageSize.val, hprod⟩ }
          w).2 := by
  rw [UserList_ready p c w page pageSize hcl, offset_of_inInt64 page pageSize hp hprod]
  rcases hu : p.UsersList cl
      { Limit := pageSize, Offset := ⟨(page.val - 1) * pageSize.val, hprod⟩ } w
    with ⟨ru, w1⟩
  rcases ru with err | ⟨users, listMeta⟩
  · exact ⟨_, rfl, rfl, rfl⟩
  · exact ⟨_, rfl, rfl, rfl⟩

/-- C3, amended, at page 2 and page size 10: the list operation is called
with offset 10 and limit 10. -/
theorem list_offset_limit_witness :
    ∃ r, UserList demoProvider configuredBridge 0 pageTwo pageSizeTen = some r ∧
      r.calls =
        [Call.List { Limit := pageSizeTen, Offset := ⟨10, by decide⟩ }] ∧
      r.world = 1 :=
  list_offset_limit demoProvider configuredBridge demoClient 0 pageTwo pageSizeTen
    rfl (by decide) (by decide)

/-! ## The callback without a token -/

/-- C4, the claim as stated fails: on the bridge as registered (no
configuration, no client) a callback request without `session_token` fails
with the configuration error, not with the missing-parameter error. -/
theorem callback_without_token_config_error :
    bareRequest.Query "session_token" = "" ∧
    (LoginCallback demoProvider registeredBridge 0 bareRequest).map
        (fun r => r.ret) =
      some (none, some (GoError.errorString "Clerk config is not set")) ∧
    GoError.errorString "Clerk config is not set" ≠
      GoError.errorString "Lack of Clerk session_token parameter in URL" :=
  ⟨by decide, by decide, by decide⟩

/-- C4, amended: for every request whose `session_token` query parameter is
empty or absent, `LoginCallback` (and so `SignUpCallback`) returns no user
record and issues no provider call; the error is the missing-parameter error
when client initialisation succeeds and the configuration error when it
fails. -/
theorem callback_without_token {σ : Type} (p : Provider σ) (c : ClerkUserCenter)
    (w : σ) (ctx : GinContext) (ht : ctx.Query "session_token" = "") :
    ∃ r, LoginCallback p c w ctx = some r ∧ SignUpCallback p c w ctx = some r ∧
      r.ret.1 = none ∧ r.calls = [] ∧ r.world = w ∧
      ((ensureClient c).1 = none →
        r.ret.2 =
          some (GoError.errorString "Lack of Clerk session_token parameter in URL")) ∧
      ((ensureClient c).1 ≠ none →
        r.ret.2 = some (GoError.errorString "Clerk config is not set")) := by
  unfold SignUpCallback
  rcases ensureClient_cases c with ⟨hf, _⟩ | ⟨cl, hok, hcl, _⟩
  · rw [LoginCallback_failed p c w ctx (congrArg Prod.fst hf)]
    refine ⟨_, rfl, rfl, rfl, rfl, rfl, ?_, fun _ => rfl⟩
    intro h
    rw [hf] at h
    cases h
  · rw [LoginCallback_ready p c w ctx hcl, if_pos ht]
    exact ⟨_, rfl, rfl, rfl, rfl, rfl, fun _ => rfl, fun h => absurd hok h⟩

/-- C4, amended, on a bridge with a client: the request `?session_token=`
gets the missing-parameter error, no record and no provider call. -/
theorem callback_without_token_witness :
    ∃ r, LoginCallback demoProvider readyBridge 0 emptyTokenRequest = some r ∧
      SignUpCallback demoProvider readyBridge 0 emptyTokenRequest = some r ∧
      r.ret.1 = none ∧ r.calls = [] ∧ r.world = 0 ∧
      ((ensureClient readyBridge).1 = none →
        r.ret.2 =
          some (GoError.errorString "Lack of Clerk session_token parameter in URL")) ∧
      ((ensureClient readyBridge).1 ≠ none →
        r.ret.2 = some (GoError.errorString "Clerk config is not set")) :=
  callback_without_token demoProvider readyBridge 0 emptyTokenRequest (by decide)

/-! ## Outcomes of the callback, the branding lookup and the listing -/

/-- C6: on a bridge with an initialised client and a request with a non-empty
session token, `LoginCallback` returns normally and leaves the bridge as it
was. If the provider rejects the token, the result is no record and the error
`"Clerk: Invalid session_token: "` wrapping the provider error, and the
session exchange is the only provider call. If the token is accepted and the
fetch of the user with the session owner ID fails, the result is no record and
the error `"Clerk: Failed to get User Info: "` wrapping the provider error.
Otherwise there is no error and the record is the mapping of the fetched
user. -/
theorem login_callback_outcomes {σ : Type} (p : Provider σ)
    (c : ClerkUserCenter) (cl : Client) (w : σ) (ctx : GinContext)
    (hc : c.Client = some cl) (ht : ctx.Query "session_token" ≠ "") :
    ∃ r, LoginCallback p c w ctx = some r ∧ r.bridge = c ∧
      (match p.SessionsGetSessionByToken cl (ctx.Query "session_token") w with
      | (.error e, w1) =>
        r.ret = (none, some (GoError.wrapError
            ("Clerk: Invalid session_token: " ++ e.Error) e)) ∧
          r.calls = [Call.GetSessionByToken (ctx.Query "session_token")] ∧
          r.world = w1
      | (.ok s, w1) =>
        match p.UsersUser cl s.UserID w1 with
        | (.error e, w2) =>
          r.ret = (none, some (GoError.wrapError
              ("Clerk: Failed to get User Info: " ++ e.Error) e)) ∧
            r.calls = [Call.GetSessionByToken (ctx.Query "session_token"),
              Call.User s.UserID] ∧
            r.world = w2
        | (.ok u, w2) =>
          r.ret = (some (specHostRecord u), none) ∧
            r.calls = [Call.GetSessionByToken (ctx.Query "session_token"),
              Call.User s.UserID] ∧
            r.world = w2) ∧
      (r.ret.2 = none ↔
        ∃ s w1 u w2,
          p.SessionsGetSessionByToken cl (ctx.Query "session_token") w =
              (.ok s, w1) ∧
            p.UsersUser cl s.UserID w1 = (.ok u, w2)) := by
  have he := ensureClient_of_client hc
  have hcl : (ensureClient c).2.Client = some cl := by rw [he]; exact hc
  rw [LoginCallback_ready p c w ctx hcl, if_neg ht, he]
  rcases hs : p.SessionsGetSessionByToken cl (ctx.Query "session_token") w
    with ⟨rs, w1⟩
  rcases rs with err | s
  · refine ⟨_, rfl, rfl, ⟨rfl, rfl, rfl⟩, ?_⟩
    constructor
    · intro h
      cases h
    · rintro ⟨s, w1, u, w2, h, _⟩
      cases h
  · dsimp only
    rcases hu : p.UsersUser cl s.UserID w1 with ⟨ru, w2⟩
    rcases ru with err | u
    · refine ⟨_, rfl, rfl, ⟨rfl, rfl, rfl⟩, ?_⟩
      constructor
      · intro h
        cases h
      · rintro ⟨s2, w3, u, w4, h, h2⟩
        cases h
        rw [hu] at h2
        cases h2
    · exact ⟨_, rfl, rfl, ⟨rfl, rfl, rfl⟩, fun _ => ⟨s, w1, u, w2, rfl, hu⟩, fun _ => rfl⟩

/-- C6, on the concrete provider: an unknown token is rejected with the
authentication error wrapping the provider error, after one provider call. -/
theorem login_callback_outcomes_witness :
    ∃ r, LoginCallback demoProvider readyBridge 0
          { query := [("session_token", "tok_forged")] } = some r ∧
      r.bridge = readyBridge ∧
      r.ret = (none, some (GoError.wrapError
          "Clerk: Invalid session_token: session not found"
          (GoError.errorString "session not found"))) ∧
      r.calls = [Call.GetSessionByToken "tok_forged"] ∧
      r.world = 1 := by
  obtain ⟨r, hr, hb, ⟨h1, h2, h3⟩, _⟩ :=
    login_callback_outcomes demoProvider readyBridge demoClient 0
      { query := [("session_token", "tok_forged")] } rfl (by decide)
  exact ⟨r, hr, hb, h1, h2, h3⟩

/-- C7: `PersonalBranding` returns normally with a non-nil branding record for
every provider, bridge, provider state and external ID. When the client
cannot be initialised the record has every field empty and no provider call
is made; when the user fetch fails the record has every field empty;
otherwise its avatar URL and nickname are the image URL and the username of
the fetched user. -/
theorem personal_branding_total {σ : Type} (p : Provider σ)
    (c : ClerkUserCenter) (w : σ) (externalID : String) :
    ∃ r b, PersonalBranding p c w externalID = some r ∧ r.ret = some b ∧
      ((ensureClient c).1 ≠ none →
        b = { AvatarURL := "", Nickname := "" } ∧ r.calls = []) ∧
      (∀ cl, (ensureClient c).2.Client = some cl →
        match p.UsersUser cl externalID w with
        | (.error _, _) => b = { AvatarURL := "", Nickname := "" }
        | (.ok u, _) => b = { AvatarURL := u.ImageURL, Nickname := u.Username }) := by
  rcases ensureClient_cases c with ⟨hf, hn⟩ | ⟨cl, hok, hcl, _⟩
  · rw [PersonalBranding_failed p c w externalID (congrArg Prod.fst hf)]
    refine ⟨_, _, rfl, rfl, fun _ => ⟨rfl, rfl⟩, ?_⟩
    intro cl h
    rw [hf] at h
    rw [hn] at h
    cases h
  · rw [PersonalBranding_ready p c w externalID hcl]
    rcases hu : p.UsersUser cl externalID w with ⟨ru, w1⟩
    rcases ru with err | u
    · refine ⟨_, _, rfl, rfl, fun h => absurd hok h, ?_⟩
      intro cl2 h2
      rw [hcl] at h2
      cases h2
      rw [hu]
    · refine ⟨_, _, rfl, rfl, fun h => absurd hok h, ?_⟩
      intro cl2 h2
      rw [hcl] at h2
      cases h2
      rw [hu]

/-- C7, on the bridge as registered: the branding record is empty. -/
theorem personal_branding_total_witness :
    (PersonalBranding demoProvider registeredBridge 0 "user_1").map
        (fun r => (r.ret, r.calls)) =
      some (some { AvatarURL := "", Nickname := "" }, []) := by
  obtain ⟨r, b, hr, hb, hf, _⟩ :=
    personal_branding_total demoProvider registeredBridge 0 "user_1"
  obtain ⟨h1, h2⟩ := hf (by decide)
  rw [hr, Option.map_some', hb, h1, h2]

theorem Int64.lit_zero_val : (Int64.lit 0).val = 0 := by decide

/-- C8: on a bridge whose client is available, `UserList` returns normally.
When the provider list call succeeds the result is the list of the mapped
provider records, one per record and in the order of the provider, the total
the provider reports (0 when the pagination metadata is nil) and no error.
When the call fails the result is the nil slice, total 0 and the error
`"Clerk: Failed to list users: "` wrapping the provider error. -/
theorem user_list_result {σ : Type} (p : Provider σ) (c : ClerkUserCenter)
    (cl : Client) (w : σ) (page pageSize : Int64)
    (hcl : (ensureClient c).2.Client = some cl) :
    ∃ r, UserList p c w page pageSize = some r ∧
      match p.UsersList cl
          { Limit := pageSize
            Offset := Int64.mul (Int64.sub page (Int64.lit 1)) pageSize } w with
      | (.ok (users, listMeta), _) =>
        r.ret.1 = some (users.map specHostRecord) ∧
          r.ret.2.1.val =
            (match listMeta with
              | some m => m.TotalCount.val
              | none => 0) ∧
          r.ret.2.2 = none
      | (.error e, _) =>
        r.ret.1 = none ∧ r.ret.2.1.val = 0 ∧
          r.ret.2.2 = some (GoError.wrapError
            ("Clerk: Failed to list users: " ++ e.Error) e) := by
  rw [UserList_ready p c w page pageSize hcl]
  rcases hu : p.UsersList cl
      { Limit := pageSize
        Offset := Int64.mul (Int64.sub page (Int64.lit 1)) pageSize } w
    with ⟨ru, w1⟩
  rcases ru with err | ⟨users, listMeta⟩
  · exact ⟨_, rfl, rfl, Int64.lit_zero_val, rfl⟩
  · refine ⟨_, rfl, rfl, ?_, rfl⟩
    cases listMeta with
    | none => exact Int64.lit_zero_val
    | some m => rfl

/-- C8, at page 2 and page size 10 on the concrete provider, which serves ten
records and reports total 25: the result has ten records and total 25. -/
theorem user_list_result_witness :
    ∃ r recs, UserList demoProvider configuredBridge 0 pageTwo pageSizeTen = some r ∧
      r.ret.1 = some recs ∧ recs.length = 10 ∧ r.ret.2.1.val = 25 ∧
      r.ret.2.2 = none := by
  obtain ⟨r, hr, h1, h2, h3⟩ :=
    user_list_result demoProvider configuredBridge demoClient 0 pageTwo pageSizeTen rfl
  exact ⟨r, _, hr, h1, by decide, h2, h3⟩

/-! ## The client state -/

theorem step_of_client {σ : Type} (p : Provider σ) (op : Op)
    (c : ClerkUserCenter) (cl : Client) (w : σ) (hc : c.Client = some cl) :
    ∃ w1, step p op (c, w) = some (c, w1) := by
  have he := ensureClient_of_client hc
  have hcl : (ensureClient c).2.Client = some cl := by rw [he]; exact hc
  have hlogin : ∀ ctx, ∃ w1,
      (LoginCallback p c w ctx).map (fun r => (r.bridge, r.world)) =
        some (c, w1) := by
    intro ctx
    rw [LoginCallback_ready p c w ctx hcl, he]
    by_cases ht : ctx.Query "session_token" = ""
    · rw [if_pos ht]
      exact ⟨_, rfl⟩
    · rw [if_neg ht]
      rcases hs : p.SessionsGetSessionByToken cl (ctx.Query "session_token") w
        with ⟨rs, w1⟩
      rcases rs with err | s
      · exact ⟨_, rfl⟩
      · dsimp only
        rcases hu : p.UsersUser cl s.UserID w1 with ⟨ru, w2⟩
        rcases ru with err | u <;> exact ⟨_, rfl⟩
  cases op with
  | Info => exact ⟨w, rfl⟩
  | Description => exact ⟨w, rfl⟩
  | ControlCenterItems => exact ⟨w, rfl⟩
  | ensureClient =>
    refine ⟨w, ?_⟩
    show some ((ensureClient c).2, w) = some (c, w)
    rw [he]
  | LoginCallback ctx => exact hlogin ctx
  | UserInfo externalID =>
    show ∃ w1, (UserInfo p c w externalID).map (fun r => (r.bridge, r.world)) =
      some (c, w1)
    rw [UserInfo_ready p c w externalID hcl, he]
    rcases hu : p.UsersUser cl externalID w with ⟨ru, w1⟩
    rcases ru with err | u <;> exact ⟨_, rfl⟩
  | UserStatus _ => exact ⟨w, rfl⟩
  | SignUpCallback ctx => exact hlogin ctx
  | UserList page pageSize =>
    show ∃ w1, (UserList p c w page pageSize).map (fun r => (r.bridge, r.world)) =
      some (c, w1)
    rw [UserList_ready p c w page pageSize hcl, he]
    rcases hu : p.UsersList cl
        { Limit := pageSize
          Offset := Int64.mul (Int64.sub page (Int64.lit 1)) pageSize } w
      with ⟨ru, w1⟩
    rcases ru with err | ⟨users, listMeta⟩ <;> exact ⟨_, rfl⟩
  | UserSettings _ => exact ⟨w, rfl⟩
  | PersonalBranding externalID =>
    show ∃ w1, (PersonalBranding p c w externalID).map
      (fun r => (r.bridge, r.world)) = some (c, w1)
    rw [PersonalBranding_ready p c w externalID hcl, he]
    rcases hu : p.UsersUser cl externalID w with ⟨ru, w1⟩
    rcases ru with err | u <;> exact ⟨_, rfl⟩

theorem exec_of_client {σ : Type} (p : Provider σ) (ops : List Op)
    (c : ClerkUserCenter) (cl : Client) (w : σ) (hc : c.Client = some cl) :
    ∃ w1, exec p ops (c, w) = some (c, w1) := by
  induction ops generalizing w with
  | nil => exact ⟨w, rfl⟩
  | cons op ops ih =>
    obtain ⟨w1, h1⟩ := step_of_client p op c cl w hc
    obtain ⟨w2, h2⟩ := ih w1
    refine ⟨w2, ?_⟩
    show (match step p op (c, w) with
      | none => none
      | some st1 => exec p ops st1) = some (c, w2)
    rw [h1]
    exact h2

/-- C10: once `ensureClient` has succeeded the bridge holds a client handle
and a second call succeeds and changes nothing; after any sequence of bridge
operations from there, whatever the provider answers, the bridge (client
handle and configuration) is still the same, so that every later
`ensureClient` call succeeds and changes nothing; and no operation turns a
bridge that holds a client handle into one that holds none. -/
theorem client_state_monotonic {σ : Type} (p : Provider σ) :
    (∀ c : ClerkUserCenter, (ensureClient c).1 = none →
      (ensureClient c).2.Client ≠ none ∧
        (ensureClient c).2.Config = c.Config ∧
        ensureClient (ensureClient c).2 = (none, (ensureClient c).2)) ∧
    (∀ (c : ClerkUserCenter) (w : σ) (ops : List Op), (ensureClient c).1 = none →
      ∃ w1, exec p ops ((ensureClient c).2, w) = some ((ensureClient c).2, w1)) ∧
    (∀ (c : ClerkUserCenter) (cl : Client) (w : σ) (op : Op), c.Client = some cl →
      ∃ c1 w1, step p op (c, w) = some (c1, w1) ∧ c1.Client = some cl ∧
        c1.Config = c.Config) := by
  have hready : ∀ c : ClerkUserCenter, (ensureClient c).1 = none →
      ∃ cl, (ensureClient c).2.Client = some cl ∧
        (ensureClient c).2.Config = c.Config := by
    intro c h
    rcases ensureClient_cases c with ⟨hf, _⟩ | ⟨cl, _, hcl, hcfg⟩
    · rw [hf] at h
      cases h
    · exact ⟨cl, hcl, hcfg⟩
  refine ⟨?_, ?_, ?_⟩
  · intro c h
    obtain ⟨cl, hcl, hcfg⟩ := hready c h
    refine ⟨?_, hcfg, ensureClient_of_client hcl⟩
    rw [hcl]
    exact Option.some_ne_none cl
  · intro c w ops h
    obtain ⟨cl, hcl, _⟩ := hready c h
    exact exec_of_client p ops _ cl w hcl
  · intro c cl w op hc
    obtain ⟨w1, h1⟩ := step_of_client p op c cl w hc
    exact ⟨c, w1, h1, hc, rfl⟩

/-- C10, on the concrete provider: after `ensureClient` built the client of
the configured bridge, a login, a listing and a failing lookup leave the
bridge as it was. -/
theorem client_state_monotonic_witness :
    ∃ w1, exec demoProvider
        [Op.LoginCallback validRequest, Op.UserList pageTwo pageSizeTen,
          Op.UserInfo "nobody", Op.ensureClient]
        ((ensureClient configuredBridge).2, 0) =
      some (readyBridge, w1) :=
  (client_state_monotonic demoProvider).2.1 configuredBridge 0
    [Op.LoginCallback validRequest, Op.UserList pageTwo pageSizeTen,
      Op.UserInfo "nobody", Op.ensureClient] rfl

/-! ## Client initialisation with a missing configuration -/

theorem step_bridge {σ : Type} (p : Provider σ) (op : Op)
    (c c1 : ClerkUserCenter) (w w1 : σ) (h : step p op (c, w) = some (c1, w1)) :
    c1 = c ∨ c1 = (ensureClient c).2 := by
  have hlogin : ∀ ctx,
      (LoginCallback p c w ctx).map (fun r => (r.bridge, r.world)) = some (c1, w1) →
        c1 = c ∨ c1 = (ensureClient c).2 := by
    intro ctx h
    rcases ensureClient_cases c with ⟨hf, _⟩ | ⟨cl, _, hcl, _⟩
    · rw [LoginCallback_failed p c w ctx (congrArg Prod.fst hf)] at h
      cases h
      exact Or.inl rfl
    · rw [LoginCallback_ready p c w ctx hcl] at h
      by_cases ht : ctx.Query "session_token" = ""
      · rw [if_pos ht] at h
        cases h
        exact Or.inr rfl
      · rw [if_neg ht] at h
        rcases hs : p.SessionsGetSessionByToken cl (ctx.Query "session_token") w
          with ⟨rs, w2⟩
        rw [hs] at h
        rcases rs with err | s
        · cases h
          exact Or.inr rfl
        · dsimp only at h
          rcases hu : p.UsersUser cl s.UserID w2 with ⟨ru, w3⟩
          rw [hu] at h
          rcases ru with err | u <;> cases h <;> exact Or.inr rfl
  cases op with
  | Info => cases h; exact Or.inl rfl
  | Description => cases h; exact Or.inl rfl
  | ControlCenterItems => cases h; exact Or.inl rfl
  | ensureClient => cases h; exact Or.inr rfl
  | LoginCallback ctx => exact hlogin ctx h
  | UserInfo externalID =>
    change (UserInfo p c w externalID).map (fun r => (r.bridge, r.world)) =
      some (c1, w1) at h
    rcases ensureClient_cases c with ⟨hf, _⟩ | ⟨cl, _, hcl, _⟩
    · rw [UserInfo_failed p c w externalID (congrArg Prod.fst hf)] at h
      cases h
      exact Or.inl rfl
    · rw [UserInfo_ready p c w externalID hcl] at h
      rcases hu : p.UsersUser cl externalID w with ⟨ru, w2⟩
      rw [hu] at h
      rcases ru with err | u <;> cases h <;> exact Or.inr rfl
  | UserStatus _ => cases h; exact Or.inl rfl
  | SignUpCallback ctx => exact hlogin ctx h
  | UserList page pageSize =>
    change (UserList p c w page pageSize).map (fun r => (r.bridge, r.world)) =
      some (c1, w1) at h
    rcases ensureClient_cases c with ⟨hf, _⟩ | ⟨cl, _, hcl, _⟩
    · rw [UserList_failed p c w page pageSize (congrArg Prod.fst hf)] at h
      cases h
      exact Or.inl rfl
    · rw [UserList_ready p c w page pageSize hcl] at h
      rcases hu : p.UsersList cl
          { Limit := pageSize
            Offset := Int64.mul (Int64.sub page (Int64.lit 1)) pageSize } w
        with ⟨ru, w2⟩
      rw [hu] at h
      rcases ru with err | ⟨users, listMeta⟩ <;> cases h <;> exact Or.inr rfl
  | UserSettings _ => cases h; exact Or.inl rfl
  | PersonalBranding externalID =>
    change (PersonalBranding p c w externalID).map (fun r => (r.bridge, r.world)) =
      some (c1, w1) at h
    rcases ensureClient_cases c with ⟨hf, _⟩ | ⟨cl, _, hcl, _⟩
    · rw [PersonalBranding_failed p c w externalID (congrArg Prod.fst hf)] at h
      cases h
      exact Or.inl rfl
    · rw [PersonalBranding_ready p c w externalID hcl] at h
      rcases hu : p.UsersUser cl externalID w with ⟨ru, w2⟩
      rw [hu] at h
      rcases ru with err | u <;> cases h <;> exact Or.inr rfl

theorem ensureClient_keeps_client_config (c : ClerkUserCenter)
    (h : c.Client = none ∨
      ∃ cfg, c.Config = some cfg ∧ cfg.SecretKey ≠ "" ∧ cfg.FrontendAPI ≠ "") :
    (ensureClient c).2.Client = none ∨
      ∃ cfg, (ensureClient c).2.Config = some cfg ∧ cfg.SecretKey ≠ "" ∧
        cfg.FrontendAPI ≠ "" := by
  rcases hcl : c.Client with _ | cl
  · unfold ensureClient
    rw [hcl]
    rcases hcfg : c.Config with _ | cfg
    · exact Or.inl hcl
    · by_cases hk : cfg.SecretKey = "" ∨ cfg.FrontendAPI = ""
      · dsimp only
        rw [if_pos hk]
        exact Or.inl hcl
      · dsimp only
        rw [if_neg hk]
        exact Or.inr ⟨cfg, rfl, fun e => hk (Or.inl e), fun e => hk (Or.inr e)⟩
  · rw [ensureClient_of_client hcl]
    rcases h with hn | hg
    · rw [hcl] at hn
      cases hn
    · exact Or.inr hg

theorem exec_keeps_client_config {σ : Type} (p : Provider σ) (ops : List Op)
    (c c1 : ClerkUserCenter) (w w1 : σ)
    (h : c.Client = none ∨
      ∃ cfg, c.Config = some cfg ∧ cfg.SecretKey ≠ "" ∧ cfg.FrontendAPI ≠ "")
    (hx : exec p ops (c, w) = some (c1, w1)) :
    c1.Client = none ∨
      ∃ cfg, c1.Config = some cfg ∧ cfg.SecretKey ≠ "" ∧ cfg.FrontendAPI ≠ "" := by
  induction ops generalizing c w with
  | nil =>
    cases hx
    exact h
  | cons op ops ih =>
    change (match step p op (c, w) with
      | none => none
      | some st1 => exec p ops st1) = some (c1, w1) at hx
    rcases hs : step p op (c, w) with _ | ⟨c2, w2⟩
    · rw [hs] at hx
      cases hx
    · rw [hs] at hx
      refine ih c2 w2 ?_ hx
      rcases step_bridge p op c c2 w w2 hs with e | e
      · rw [e]
        exact h
      · rw [e]
        exact ensureClient_keeps_client_config c h

/-- C5: take any bridge a run can reach, that is the bridge left by any
sequence of bridge methods started on a bridge without a client handle (the
empty sequence included). If its configuration is nil or has an empty secret
key or an empty frontend API URL, then `ensureClient` fails with the error
`"Clerk config is not set"`, the bridge is unchanged and holds no client
handle, the provider state is untouched, and each method that starts with
`ensureClient` returns without a provider call. -/
theorem ensureClient_missing_config {σ : Type} (p : Provider σ)
    (ops : List Op) (c0 c : ClerkUserCenter) (w0 w : σ)
    (h0 : c0.Client = none) (hreach : exec p ops (c0, w0) = some (c, w))
    (hcfg : c.Config = none ∨
      ∃ cfg, c.Config = some cfg ∧ (cfg.SecretKey = "" ∨ cfg.FrontendAPI = "")) :
    ensureClient c = (some (GoError.errorString "Clerk config is not set"), c) ∧
      (ensureClient c).2.Client = none ∧
      step p Op.ensureClient (c, w) = some (c, w) ∧
      (∀ ctx, (LoginCallback p c w ctx).map (fun r => (r.calls, r.world)) =
        some ([], w)) ∧
      (∀ externalID, (UserInfo p c w externalID).map (fun r => (r.calls, r.world)) =
        some ([], w)) ∧
      (∀ page pageSize,
        (UserList p c w page pageSize).map (fun r => (r.calls, r.world)) =
          some ([], w)) ∧
      (∀ externalID,
        (PersonalBranding p c w externalID).map (fun r => (r.calls, r.world)) =
          some ([], w)) := by
  have hcl : c.Client = none := by
    rcases exec_keeps_client_config p ops c0 c w0 w (Or.inl h0) hreach
      with hn | ⟨cfg, hs, hk1, hk2⟩
    · exact hn
    · rcases hcfg with hnone | ⟨cfg2, hs2, hk⟩
      · rw [hs] at hnone
        cases hnone
      · rw [hs] at hs2
        cases hs2
        rcases hk with e | e
        · exact absurd e hk1
        · exact absurd e hk2
  have h : ensureClient c =
      (some (GoError.errorString "Clerk config is not set"), c) := by
    unfold ensureClient
    rw [hcl]
    rcases hcfg with hn | ⟨cfg, hs, hk⟩
    · rw [hn]
      rfl
    · rw [hs]
      dsimp only
      rw [if_pos hk]
      rfl
  have hf : (ensureClient c).1 =
      some (GoError.errorString "Clerk config is not set") := congrArg Prod.fst h
  refine ⟨h, ?_, ?_, ?_, ?_, ?_, ?_⟩
  · rw [h]
    exact hcl
  · show some ((ensureClient c).2, w) = some (c, w)
    rw [h]
  · intro ctx
    rw [LoginCallback_failed p c w ctx hf]
    rfl
  · intro externalID
    rw [UserInfo_failed p c w externalID hf]
    rfl
  · intro page pageSize
    rw [UserList_failed p c w page pageSize hf]
    rfl
  · intro externalID
    rw [PersonalBranding_failed p c w externalID hf]
    rfl

/-- C5, on a bridge whose configuration has an empty secret key, after a
lookup and a callback have already been tried on it. -/
theorem ensureClient_missing_config_witness :
    exec demoProvider [Op.UserInfo "user_1", Op.LoginCallback validRequest]
        (keylessBridge, 0) = some (keylessBridge, 0) ∧
      ensureClient keylessBridge =
        (some (GoError.errorString "Clerk config is not set"), keylessBridge) ∧
      (ensureClient keylessBridge).2.Client = none :=
  ⟨rfl,
    (ensureClient_missing_config demoProvider
      [Op.UserInfo "user_1", Op.LoginCallback validRequest]
      keylessBridge keylessBridge 0 0 rfl rfl
      (Or.inr ⟨_, rfl, Or.inl rfl⟩)).1,
    (ensureClient_missing_config demoProvider
      [Op.UserInfo "user_1", Op.LoginCallback validRequest]
      keylessBridge keylessBridge 0 0 rfl rfl
      (Or.inr ⟨_, rfl, Or.inl rfl⟩)).2.1⟩

end clerk_user_center
